import Mathlib

/-!
Verification of the MIND-CTS-Software repository against its specification.

The development shallowly embeds the logic of the repository's scripts:

* `src/app/Grip_strength/grip_s.py` — grip-strength sample reduction
  (sort descending, take top 60 percent, mean) and the ratio to a stored
  baseline;
* `src/app/Pinch_strength/pinch_s.py` — pinch-strength reduction (minimum
  of each finger's samples, 0 on an empty list) and guarded ratios;
* `src/app/PT_accuracy/hand_flexion_main_with_websocket.py` and
  `src/app/PT_accuracy/hand_tracker.py` — the wrist-flexion repetition
  tracker: the per-frame `observe` update (success detection, auto
  level-up, straightness warning, re-arm, drift rejection, snapshot
  emission) and the manual level-up / direction-toggle / session-end
  operations.  The per-frame logic of the two tracker variants is
  identical; line references below are to the websocket variant.

Angles and targets are embedded as exact rationals (the Python floats are
idealized as exact arithmetic); landmark pixel positions as integer pairs,
with the `math.hypot` comparisons of the source rewritten equivalently on
squared distances.
-/

namespace MindCts

/-! ## Sample-window reducers (grip_s.py, pinch_s.py) -/

/-- Python `int(0.6 * n)` of grip_s.py line 58, taken over exact
rationals: `⌊3n/5⌋`. -/
def len60 (n : ℕ) : ℕ := 3 * n / 5

/-- Insert a value into a descending-sorted list, keeping it descending. -/
def insertDesc (x : ℚ) : List ℚ → List ℚ
  | [] => [x]
  | y :: ys => if x ≥ y then x :: y :: ys else y :: insertDesc x ys

/-- Line 57 of grip_s.py, `np.sort(grip_vals)[::-1]`: the samples in
descending order. -/
def sortDesc : List ℚ → List ℚ
  | [] => []
  | x :: xs => insertDesc x (sortDesc xs)

/-- Line 59 of grip_s.py, `sorted_vals[:len60]`. -/
def top60 (vals : List ℚ) : List ℚ := (sortDesc vals).take (len60 vals.length)

/-- The numpy mean of grip_s.py line 60: `none` models the NaN that
numpy returns for the mean of an empty array. -/
def npMean (xs : List ℚ) : Option ℚ :=
  if xs = [] then none else some (xs.sum / (xs.length : ℚ))

/-- The reduced grip value `max_val` of grip_s.py lines 57-60 (computed
only after the emptiness check): mean of the top 60 percent of the
samples sorted descending; `none` is the NaN produced when the slice is
empty. -/
def gripMaxVal (vals : List ℚ) : Option ℚ := npMean (top60 vals)

/-- Outcome of the grip script's reduction-and-ratio phase
(grip_s.py lines 53-68). -/
inductive GripOutcome
  | noData                -- len == 0: print "No data received", sys.exit(1)
  | nanValue              -- max_val is NaN (mean of an empty top-60% slice)
  | divByZero             -- line 68 divides max_val by a zero baseline
  | val (r : ℚ)           -- the finite ratio max_val / baseline_value
  deriving Repr, DecidableEq

/-- Lines 53-68 of grip_s.py: exit with "No data" on an empty sample
list; otherwise reduce via `gripMaxVal` and compute
`ratio = max_val / baseline_value` unconditionally — there is no guard on
the baseline, so a zero baseline reaches an IEEE division by zero. -/
def gripScript (vals : List ℚ) (baseline : ℚ) : GripOutcome :=
  if vals = [] then .noData
  else
    match gripMaxVal vals with
    | none => .nanValue
    | some m => if baseline = 0 then .divByZero else .val (m / baseline)

/-- Lines 51-59 of pinch_s.py, `min(ind_vals)` when the list is nonempty
and `0` otherwise: the pinch reduction substitutes `0` for the minimum of
an empty list. -/
def pinchReduce (vals : List ℚ) : ℚ :=
  match vals.min? with
  | some v => v
  | none => 0

/-- The values printed by the pinch session (pinch_s.py lines 72-76). -/
structure PinchResult where
  I_T : ℚ
  M_T : ℚ
  r_IT : ℚ
  r_MT : ℚ
  deriving Repr, DecidableEq

/-- Lines 48-76 of pinch_s.py: when either baseline is `None` the script only
prints "There are no baseline values." (`none`); otherwise it reduces both
sample lists and computes each ratio guarded by truthiness
(`if base_IT:`), substituting 0 when the baseline is zero. -/
def pinchSession (baseIT baseMT : Option ℚ) (ind mid : List ℚ) :
    Option PinchResult :=
  match baseIT, baseMT with
  | some bI, some bM =>
      some { I_T := pinchReduce ind
             M_T := pinchReduce mid
             r_IT := if bI ≠ 0 then pinchReduce ind / bI else 0
             r_MT := if bM ≠ 0 then pinchReduce mid / bM else 0 }
  | _, _ => none

/-! ## Wrist-flexion repetition tracker (hand_flexion_main_with_websocket.py) -/

/-- Progression-system constants, lines 34-35 and 58-64 of the source. -/
def RESET_THRESHOLD : ℚ := 4

def MAX_ANGLE_TARGET_FORWARD : ℚ := 70

def MIN_ANGLE_TARGET_FORWARD : ℚ := 25

def MAX_ANGLE_TARGET_BACKWARD : ℚ := 50

def MIN_ANGLE_TARGET_BACKWARD : ℚ := 10

def ANGLE_INCREMENT : ℚ := 5

def NUM_REPS_TO_LEVEL_UP : ℕ := 5

/-- The `HANDEDNESS` configuration constant ("Right" or "Left"). -/
inductive Handed
  | left
  | right
  deriving Repr, DecidableEq

/-- Line 66 of the source: `HANDEDNESS = "Left"`. -/
def HANDEDNESS : Handed := Handed.left

/-- Python `int()`: truncation of a rational toward zero. -/
def pyInt (q : ℚ) : ℤ := if q < 0 then ⌈q⌉ else ⌊q⌋

/-- The tracker's mutable progression state: the module/loop variables
`angle_target_forward`, `angle_target_backward`, `FORWARD_TILT`, `armed`,
`reps`, `reps_last_session`, `baseline_id0`, `show_message` of the source
(lines 255-295). -/
structure TrackerState where
  angle_target_forward : ℚ
  angle_target_backward : ℚ
  forward_tilt : Bool
  armed : Bool
  reps : ℕ
  reps_last_session : ℕ
  baseline_id0 : Option (ℤ × ℤ)
  show_message : Bool
  deriving Repr, DecidableEq

/-- Default starting state (lines 52-56, 66-67, 289-295 of the source):
`targetForward = 30`, `targetBackward = 15`, direction Forward,
armed, zero reps, no drift baseline. -/
def DEFAULT_STATE : TrackerState :=
  { angle_target_forward := 30
    angle_target_backward := 15
    forward_tilt := true
    armed := true
    reps := 0
    reps_last_session := 0
    baseline_id0 := none
    show_message := false }

/-- One frame's derived observation: `angle_deg` (wrist to middle
fingertip, the primary angle), `angle_deg_2` (wrist to middle-finger
base, the secondary angle), and the pixel positions of landmarks 0 and 12
used by the drift check.  All absent when no hand is detected
(lines 354-404 of the source). -/
structure Measurement where
  angle_deg : Option ℚ
  angle_deg_2 : Option ℚ
  id0_xy : Option (ℤ × ℤ)
  id12_xy : Option (ℤ × ℤ)
  deriving Repr, DecidableEq

/-- The two non-fatal warnings the tracker can surface
(lines 450 and 472 of the source). -/
inductive Warning
  | handNotStraight   -- "Keep your hand straight."
  | armMoved          -- "Try not to move your arm, just your wrist."
  deriving Repr, DecidableEq

/-- The `current_state` snapshot pushed over the websocket
(lines 478-488 of the source). -/
structure Snapshot where
  angle : ℚ
  target_forward : ℚ
  target_backward : ℚ
  reps : ℕ
  reps_last : ℕ
  forward_tilt : Bool
  armed : Bool
  warning : Option Warning
  level_up : Bool
  deriving Repr, DecidableEq

/-- A row inserted into the `flexion` table by `save_session`
(lines 152-174 of the source); the degree fields are `int(...)`
truncations of the float targets. -/
structure SessionRecord where
  degree_forward : ℤ
  degree_backward : ℤ
  repetitions : ℕ
  level_up : Bool
  deriving Repr, DecidableEq

/-- Line 337 of the source, `current_angle_target`: the active
direction's target. -/
def currentTarget (s : TrackerState) : ℚ :=
  if s.forward_tilt then s.angle_target_forward else s.angle_target_backward

/-- The four-way direction-and-handedness crossing condition of
lines 420-423 of the source, on the primary angle `a` and the current
target `t`. -/
def crossing (forward_tilt : Bool) (handed : Handed) (a t : ℚ) : Bool :=
  (forward_tilt && (handed == Handed.right) &&
    decide (a < 360 - t) && decide (a > 180)) ||
  (!forward_tilt && (handed == Handed.right) &&
    decide (a > t) && decide (a < 180)) ||
  (forward_tilt && (handed == Handed.left) &&
    decide (a > t) && decide (a < 180)) ||
  (!forward_tilt && (handed == Handed.left) &&
    decide (a < 360 - t) && decide (a > 180))

/-- The full success guard of line 419: armed, angles within 10 degrees
of each other, and the crossing condition for the current direction and
handedness at the current target. -/
def successCond (s : TrackerState) (a a2 : ℚ) : Bool :=
  s.armed && decide (|a2 - a| < 10) &&
    crossing s.forward_tilt HANDEDNESS a (currentTarget s)

/-- The success branch, lines 419-444: on success disarm and increment
`reps`; if `reps` then reaches `NUM_REPS_TO_LEVEL_UP`, flip the
direction, persist a `SessionRecord` with `level_up=True` (targets still
un-incremented, repetitions = the just-reached count), add
`ANGLE_INCREMENT` to the new direction's target (no bounds check in this
branch), and reset `reps` to 0. -/
def successStep (s : TrackerState) (a a2 : ℚ) :
    TrackerState × Option SessionRecord :=
  if successCond s a a2 then
    let s1 : TrackerState := { s with armed := false, reps := s.reps + 1 }
    if s1.reps ≥ NUM_REPS_TO_LEVEL_UP then
      let ft : Bool := !s.forward_tilt
      let recd : SessionRecord :=
        { degree_forward := pyInt s.angle_target_forward
          degree_backward := pyInt s.angle_target_backward
          repetitions := s1.reps
          level_up := true }
      let s2 : TrackerState := { s1 with forward_tilt := ft, show_message := true }
      let s3 : TrackerState :=
        if ft then
          { s2 with angle_target_forward := s2.angle_target_forward + ANGLE_INCREMENT }
        else
          { s2 with angle_target_backward := s2.angle_target_backward + ANGLE_INCREMENT }
      ({ s3 with reps := 0 }, some recd)
    else (s1, none)
  else (s, none)

/-- The hand-alignment warning of lines 449-453: surfaced only when the
two angles differ by strictly more than 20 degrees and strictly less
than 300 (the latter excludes the 0/360 wraparound artifact). -/
def straightWarn (a a2 : ℚ) : Option Warning :=
  if 20 < |a2 - a| ∧ |a2 - a| < 300 then some Warning.handNotStraight else none

/-- The re-arm step of lines 455-458: when disarmed and the primary angle
is within `RESET_THRESHOLD` of 0 or 360, re-arm and refresh the drift
baseline to the current wrist position (when available). -/
def rearmStep (s : TrackerState) (a : ℚ) (id0 : Option (ℤ × ℤ)) :
    TrackerState :=
  if !s.armed ∧ (a ≤ RESET_THRESHOLD ∨ a ≥ 360 - RESET_THRESHOLD) then
    { s with armed := true
             baseline_id0 := match id0 with
                             | some p => some p
                             | none => s.baseline_id0 }
  else s

/-- Squared Euclidean distance between two pixel positions; the source's
`math.hypot` comparisons are equivalent comparisons of these squares. -/
def distSq (p q : ℤ × ℤ) : ℤ := (p.1 - q.1) ^ 2 + (p.2 - q.2) ^ 2

/-- The drift-rejection step of lines 460-475: initialize the baseline
wrist position when unset; when the hand has nonzero length and the
wrist has drifted from the baseline by more than a third of the hand
length (`wrist_drift > hand_len / 3`, squared: `9·drift² > len²`),
disarm and surface the arm-movement warning, overwriting any earlier
warning of this tick. -/
def driftStep (s : TrackerState) (id0 id12 : Option (ℤ × ℤ))
    (warn : Option Warning) : TrackerState × Option Warning :=
  match id0, id12 with
  | some p0, some p12 =>
      let base : ℤ × ℤ := s.baseline_id0.getD p0
      let s1 : TrackerState := { s with baseline_id0 := some base }
      if distSq p0 p12 > 0 then
        if 9 * distSq p0 base > distSq p0 p12 then
          ({ s1 with armed := false }, some Warning.armMoved)
        else (s1, warn)
      else (s1, warn)
  | _, _ => (s, warn)

/-- The snapshot written to `current_state` at lines 478-488: every field
is overwritten each tick from the post-update variables; `angle` falls
back to 0 when no primary angle was measured, and `level_up` mirrors
`show_message`. -/
def mkSnapshot (s : TrackerState) (angle : Option ℚ) (warn : Option Warning) :
    Snapshot :=
  { angle := angle.getD 0
    target_forward := s.angle_target_forward
    target_backward := s.angle_target_backward
    reps := s.reps
    reps_last := s.reps_last_session
    forward_tilt := s.forward_tilt
    armed := s.armed
    warning := warn
    level_up := s.show_message }

/-- One acquisition tick's state update and snapshot emission
(lines 337, 354-488 of the source): when both angles are measured, run
the success branch, the straightness warning, the re-arm step and the
drift check in source order, then rebuild the snapshot; when either
angle is absent the whole rep-logic block is skipped and the snapshot is
rebuilt from the unchanged state with `angle` defaulted and no warning.
Also returns the `SessionRecord` persisted by an auto level-up, if any. -/
def observe (s : TrackerState) (m : Measurement) :
    TrackerState × Snapshot × Option SessionRecord :=
  match m.angle_deg, m.angle_deg_2 with
  | some a, some a2 =>
      let sr := successStep s a a2
      let w1 := straightWarn a a2
      let s2 := rearmStep sr.1 a m.id0_xy
      let s3w := driftStep s2 m.id0_xy m.id12_xy w1
      (s3w.1, mkSnapshot s3w.1 (some a) s3w.2, sr.2)
  | _, _ => (s, mkSnapshot s m.angle_deg none, none)

/-- The auto-level-up trigger: a success fires on this tick and it brings
`reps` up to `NUM_REPS_TO_LEVEL_UP`. -/
def autoLevelCond (s : TrackerState) (m : Measurement) : Bool :=
  match m.angle_deg, m.angle_deg_2 with
  | some a, some a2 =>
      successCond s a a2 && decide (s.reps + 1 ≥ NUM_REPS_TO_LEVEL_UP)
  | _, _ => false

/-- The manual level-up operation (keyboard 'l', lines 529-544, and the
`level_up` websocket command, lines 311-327 — identical state effect):
persist the current session with `level_up=False`, increment the current
direction's target by `ANGLE_INCREMENT` if that stays within its
maximum, otherwise wrap to its minimum, record `reps` into
`reps_last_session` and reset `reps` to 0. -/
def manualLevelUp (s : TrackerState) : TrackerState × SessionRecord :=
  let recd : SessionRecord :=
    { degree_forward := pyInt s.angle_target_forward
      degree_backward := pyInt s.angle_target_backward
      repetitions := s.reps
      level_up := false }
  let s1 : TrackerState :=
    if s.forward_tilt then
      if s.angle_target_forward + ANGLE_INCREMENT ≤ MAX_ANGLE_TARGET_FORWARD then
        { s with angle_target_forward := s.angle_target_forward + ANGLE_INCREMENT }
      else
        { s with angle_target_forward := MIN_ANGLE_TARGET_FORWARD }
    else
      if s.angle_target_backward + ANGLE_INCREMENT ≤ MAX_ANGLE_TARGET_BACKWARD then
        { s with angle_target_backward := s.angle_target_backward + ANGLE_INCREMENT }
      else
        { s with angle_target_backward := MIN_ANGLE_TARGET_BACKWARD }
  ({ s1 with reps_last_session := s.reps, reps := 0 }, recd)

/-- The direction-toggle operation (keyboard 'b', lines 555-561, and the
`toggle_direction` websocket command, lines 303-309): persist the current
session with `level_up=False`, flip the direction, record `reps` into
`reps_last_session` and reset `reps` to 0. -/
def toggleDirection (s : TrackerState) : TrackerState × SessionRecord :=
  let recd : SessionRecord :=
    { degree_forward := pyInt s.angle_target_forward
      degree_backward := pyInt s.angle_target_backward
      repetitions := s.reps
      level_up := false }
  ({ s with forward_tilt := !s.forward_tilt
            reps_last_session := s.reps
            reps := 0 }, recd)

/-- The session-end persistence in the `finally` block (lines 575-577):
persist the current session with `level_up=False`; the in-memory state is
not modified. -/
def endSession (s : TrackerState) : TrackerState × SessionRecord :=
  (s, { degree_forward := pyInt s.angle_target_forward
        degree_backward := pyInt s.angle_target_backward
        repetitions := s.reps
        level_up := false })

/-- Run `observe` over a list of measurements, collecting the
`SessionRecord`s persisted along the way. -/
def runTicks (s : TrackerState) (ms : List Measurement) :
    TrackerState × List SessionRecord :=
  ms.foldl
    (fun acc m =>
      let r := observe acc.1 m
      (r.1, acc.2 ++ r.2.2.toList))
    (s, [])

/-! ## Concrete inputs used by the theorems below -/

/-- A measurement with primary angle 40 and secondary angle 35: a
straight hand past the default forward target for a left hand. -/
def mSuccess40 : Measurement :=
  { angle_deg := some 40, angle_deg_2 := some 35, id0_xy := none, id12_xy := none }

/-- A measurement near the neutral position (both angles 2), which
re-arms a disarmed tracker. -/
def mRearm : Measurement :=
  { angle_deg := some 2, angle_deg_2 := some 2, id0_xy := none, id12_xy := none }

/-- A tick on which no hand was detected: every measurement field
absent. -/
def mNoHand : Measurement :=
  { angle_deg := none, angle_deg_2 := none, id0_xy := none, id12_xy := none }

/-- A measurement whose two angles differ by exactly 20 degrees. -/
def mDiff20 : Measurement :=
  { angle_deg := some 40, angle_deg_2 := some 60, id0_xy := none, id12_xy := none }

/-- A measurement whose two angles differ by 30 degrees. -/
def mDiff30 : Measurement :=
  { angle_deg := some 40, angle_deg_2 := some 70, id0_xy := none, id12_xy := none }

/-- A straight-hand measurement at 300 degrees: a Backward-direction,
left-hand success for any backward target below 50. -/
def mBack300 : Measurement :=
  { angle_deg := some 300, angle_deg_2 := some 300, id0_xy := none, id12_xy := none }

/-- A state in the Backward direction with the forward target at its
maximum 70 and four reps already counted. -/
def sForward70 : TrackerState :=
  { DEFAULT_STATE with
      angle_target_forward := 70
      angle_target_backward := 50
      forward_tilt := false
      reps := 4 }

/-- A state four reps into a session whose previous session counted 7
reps. -/
def sFourReps : TrackerState :=
  { DEFAULT_STATE with reps := 4, reps_last_session := 7 }

/-- A state two reps into a session. -/
def sTwoReps : TrackerState := { DEFAULT_STATE with reps := 2 }

/-- The five-success Forward scenario: a success tick followed by a
re-arm tick, repeated, with a fifth success at the end. -/
def fiveSuccessSeq : List Measurement :=
  [mSuccess40, mRearm, mSuccess40, mRearm, mSuccess40, mRearm,
   mSuccess40, mRearm, mSuccess40]

/-! ## Helper lemmas -/

lemma insertDesc_length (x : ℚ) (xs : List ℚ) :
    (insertDesc x xs).length = xs.length + 1 := by
  induction xs with
  | nil => rfl
  | cons y ys ih =>
      unfold insertDesc
      split
      · rfl
      · simp [ih]

lemma sortDesc_length (xs : List ℚ) : (sortDesc xs).length = xs.length := by
  induction xs with
  | nil => rfl
  | cons x xs ih => simp [sortDesc, insertDesc_length, ih]

lemma top60_length (vals : List ℚ) :
    (top60 vals).length = min (len60 vals.length) vals.length := by
  simp [top60, sortDesc_length]

lemma npMean_isSome_iff (xs : List ℚ) : (npMean xs).isSome ↔ xs ≠ [] := by
  unfold npMean
  split
  · simp_all
  · simp_all

lemma len60_eq_zero_iff (n : ℕ) : len60 n = 0 ↔ n ≤ 1 := by
  unfold len60
  omega

/-- The re-arm step never changes the targets, the direction, the rep
counters or the message flag. -/
lemma rearmStep_proj (s : TrackerState) (a : ℚ) (id0 : Option (ℤ × ℤ)) :
    (rearmStep s a id0).angle_target_forward = s.angle_target_forward ∧
    (rearmStep s a id0).angle_target_backward = s.angle_target_backward ∧
    (rearmStep s a id0).forward_tilt = s.forward_tilt ∧
    (rearmStep s a id0).reps = s.reps ∧
    (rearmStep s a id0).reps_last_session = s.reps_last_session ∧
    (rearmStep s a id0).show_message = s.show_message := by
  unfold rearmStep
  split
  · exact ⟨rfl, rfl, rfl, rfl, rfl, rfl⟩
  · exact ⟨rfl, rfl, rfl, rfl, rfl, rfl⟩

/-- The drift step never changes the targets, the direction, the rep
counters or the message flag. -/
lemma driftStep_proj (s : TrackerState) (id0 id12 : Option (ℤ × ℤ))
    (w : Option Warning) :
    (driftStep s id0 id12 w).1.angle_target_forward = s.angle_target_forward ∧
    (driftStep s id0 id12 w).1.angle_target_backward = s.angle_target_backward ∧
    (driftStep s id0 id12 w).1.forward_tilt = s.forward_tilt ∧
    (driftStep s id0 id12 w).1.reps = s.reps ∧
    (driftStep s id0 id12 w).1.reps_last_session = s.reps_last_session ∧
    (driftStep s id0 id12 w).1.show_message = s.show_message := by
  unfold driftStep
  rcases id0 with _ | p0 <;> rcases id12 with _ | p12
  · exact ⟨rfl, rfl, rfl, rfl, rfl, rfl⟩
  · exact ⟨rfl, rfl, rfl, rfl, rfl, rfl⟩
  · exact ⟨rfl, rfl, rfl, rfl, rfl, rfl⟩
  · dsimp only []
    split
    · split
      · exact ⟨rfl, rfl, rfl, rfl, rfl, rfl⟩
      · exact ⟨rfl, rfl, rfl, rfl, rfl, rfl⟩
    · exact ⟨rfl, rfl, rfl, rfl, rfl, rfl⟩

/-- The drift step either passes the incoming warning through or replaces
it with the arm-movement warning. -/
lemma driftStep_warn (s : TrackerState) (id0 id12 : Option (ℤ × ℤ))
    (w : Option Warning) :
    (driftStep s id0 id12 w).2 = w ∨
    (driftStep s id0 id12 w).2 = some Warning.armMoved := by
  unfold driftStep
  rcases id0 with _ | p0 <;> rcases id12 with _ | p12
  · exact Or.inl rfl
  · exact Or.inl rfl
  · exact Or.inl rfl
  · dsimp only []
    split
    · split
      · exact Or.inr rfl
      · exact Or.inl rfl
    · exact Or.inl rfl

/-- When no success fires, the success step leaves the state unchanged
and persists nothing. -/
lemma successStep_of_not_cond (s : TrackerState) (a a2 : ℚ)
    (h : successCond s a a2 = false) : successStep s a a2 = (s, none) := by
  unfold successStep
  simp [h]

/-- When a success fires and brings the rep count to the level-up
threshold, the success step flips the direction, increments the new
direction's target by `ANGLE_INCREMENT` with no bounds check, resets
`reps`, leaves `reps_last_session` untouched, and persists a
`level_up=True` record carrying the un-incremented targets and the
just-reached count. -/
lemma successStep_auto (s : TrackerState) (a a2 : ℚ)
    (hc : successCond s a a2 = true)
    (hr : s.reps + 1 ≥ NUM_REPS_TO_LEVEL_UP) :
    successStep s a a2 =
      ({ angle_target_forward :=
           if !s.forward_tilt then s.angle_target_forward + ANGLE_INCREMENT
           else s.angle_target_forward
         angle_target_backward :=
           if !s.forward_tilt then s.angle_target_backward
           else s.angle_target_backward + ANGLE_INCREMENT
         forward_tilt := !s.forward_tilt
         armed := false
         reps := 0
         reps_last_session := s.reps_last_session
         baseline_id0 := s.baseline_id0
         show_message := true },
       some { degree_forward := pyInt s.angle_target_forward
              degree_backward := pyInt s.angle_target_backward
              repetitions := s.reps + 1
              level_up := true }) := by
  unfold successStep
  simp only [hc, if_pos, if_true]
  rw [if_pos hr]
  cases hft : s.forward_tilt <;> simp [hft]

/-- Every state field of an `observe` tick on which an auto level-up
fires, together with the persisted record. -/
lemma observe_auto_spec (s : TrackerState) (m : Measurement)
    (h : autoLevelCond s m = true) :
    (observe s m).1.forward_tilt = !s.forward_tilt ∧
    (observe s m).1.angle_target_forward =
      (if !s.forward_tilt then s.angle_target_forward + ANGLE_INCREMENT
       else s.angle_target_forward) ∧
    (observe s m).1.angle_target_backward =
      (if !s.forward_tilt then s.angle_target_backward
       else s.angle_target_backward + ANGLE_INCREMENT) ∧
    (observe s m).1.reps = 0 ∧
    (observe s m).1.reps_last_session = s.reps_last_session ∧
    (observe s m).2.2 = some { degree_forward := pyInt s.angle_target_forward
                               degree_backward := pyInt s.angle_target_backward
                               repetitions := s.reps + 1
                               level_up := true } := by
  rcases m with ⟨oa, oa2, id0, id12⟩
  rcases oa with _ | a <;> rcases oa2 with _ | a2 <;>
    simp only [autoLevelCond] at h
  · cases h
  · cases h
  · cases h
  · rw [Bool.and_eq_true, decide_eq_true_eq] at h
    obtain ⟨hc, hr⟩ := h
    unfold observe
    dsimp only []
    rw [successStep_auto s a a2 hc hr]
    dsimp only []
    obtain ⟨d1, d2, d3, d4, d5, d6⟩ :=
      driftStep_proj (rearmStep _ a id0) id0 id12 (straightWarn a a2)
    obtain ⟨r1, r2, r3, r4, r5, r6⟩ := rearmStep_proj _ a id0
    refine ⟨?_, ?_, ?_, ?_, ?_, rfl⟩
    · rw [d3, r3]
    · rw [d1, r1]
    · rw [d2, r2]
    · rw [d4, r4]
    · rw [d5, r5]

/-- An `observe` tick with both angles measured is the success step, the
re-arm step and the drift step in sequence, with the snapshot rebuilt at
the end. -/
lemma observe_some (s : TrackerState) (m : Measurement) (a a2 : ℚ)
    (h1 : m.angle_deg = some a) (h2 : m.angle_deg_2 = some a2) :
    observe s m =
      ((driftStep (rearmStep (successStep s a a2).1 a m.id0_xy)
          m.id0_xy m.id12_xy (straightWarn a a2)).1,
       mkSnapshot
         (driftStep (rearmStep (successStep s a a2).1 a m.id0_xy)
            m.id0_xy m.id12_xy (straightWarn a a2)).1
         (some a)
         (driftStep (rearmStep (successStep s a a2).1 a m.id0_xy)
            m.id0_xy m.id12_xy (straightWarn a a2)).2,
       (successStep s a a2).2) := by
  rcases m with ⟨oa, oa2, id0, id12⟩
  dsimp only [] at h1 h2
  subst h1
  subst h2
  rfl

/-- An `observe` tick missing either angle skips the whole rep-logic
block: unchanged state, rebuilt snapshot, nothing persisted. -/
lemma observe_no_angles (s : TrackerState) (m : Measurement)
    (h : m.angle_deg = none ∨ m.angle_deg_2 = none) :
    observe s m = (s, mkSnapshot s m.angle_deg none, none) := by
  rcases m with ⟨oa, oa2, id0, id12⟩
  dsimp only [] at h
  rcases oa with _ | a
  · rfl
  · rcases oa2 with _ | a2
    · rfl
    · rcases h with h | h <;> exact Option.noConfusion h

/-! ## Claim theorems -/

/-- Claim C6 (code bug, evaluated at the failing input): with samples
`[50, 40]` the grip reduction is defined (`max_val = 50`), yet the grip
script's ratio computation (grip_s.py line 68) performs the division by
the zero baseline unguarded — contradicting the requirement that a zero
baseline yield an undefined ratio with no division fault.  The pinch
script, by contrast, does guard its baselines. -/
theorem gripScript_zero_baseline_divides :
    gripMaxVal [50, 40] = some 50 ∧
    gripScript [50, 40] 0 = GripOutcome.divByZero ∧
    pinchSession (some 0) (some 0) [50] [50] =
      some { I_T := 50, M_T := 50, r_IT := 0, r_MT := 0 } := by
  norm_num [gripMaxVal, npMean, top60, sortDesc, insertDesc, len60,
    gripScript, pinchSession, pinchReduce, List.cons_ne_nil]

/-- Claim C7 (counterexample): with baselines 2 and an index-finger
window that closed with zero samples, the pinch script still computes
and reports ratios (`r_IT = 0`, from the substituted minimum 0) instead
of reporting a no-data sentinel and producing no ratio. -/
theorem pinch_empty_window_reported :
    pinchSession (some 2) (some 2) [] [3] =
      some { I_T := 0, M_T := 3, r_IT := 0, r_MT := 3 / 2 } := by
  norm_num [pinchSession, pinchReduce]

/-- Claim C7 (amended): on an empty sample window the grip script
reports the no-data sentinel and aborts with no ratio, while the pinch
script substitutes 0 for the minimum of the empty list and still
computes and reports a ratio, which is always 0. -/
theorem empty_window_reducers (b bI bM : ℚ) (mid : List ℚ) :
    gripScript [] b = GripOutcome.noData ∧
    (pinchSession (some bI) (some bM) [] mid).map PinchResult.I_T = some 0 ∧
    (pinchSession (some bI) (some bM) [] mid).map PinchResult.r_IT = some 0 := by
  refine ⟨rfl, rfl, ?_⟩
  unfold pinchSession
  simp only [Option.map_some]
  have h0 : pinchReduce [] = 0 := rfl
  rw [h0]
  split
  · simp [zero_div]
  · rfl

/-- Claim C10 (confirmed): for a non-empty grip sample list, the top-60%
slice is empty exactly when the list has a single sample, in which case
the reduced value is the mean of an empty sequence (NaN, `none`) rather
than the sample itself; the reduction is a well-defined number exactly
when there are at least two samples. -/
theorem gripMaxVal_single_sample (vals : List ℚ) (h : vals ≠ []) :
    (len60 vals.length = 0 ↔ vals.length = 1) ∧
    (vals.length = 1 → gripMaxVal vals = none) ∧
    ((gripMaxVal vals).isSome ↔ 2 ≤ vals.length) := by
  have hlen : vals.length ≠ 0 := by
    simpa [List.length_eq_zero] using h
  have hempty : top60 vals = [] ↔ vals.length ≤ 1 := by
    rw [← List.length_eq_zero, top60_length]
    constructor
    · intro hm
      rcases Nat.min_eq_zero_iff.mp hm with h1 | h1
      · exact (len60_eq_zero_iff _).mp h1
      · omega
    · intro h1
      have := (len60_eq_zero_iff vals.length).mpr h1
      simp [this]
  refine ⟨?_, ?_, ?_⟩
  · rw [len60_eq_zero_iff]
    omega
  · intro h1
    have : top60 vals = [] := hempty.mpr (by omega)
    simp [gripMaxVal, npMean, this]
  · rw [gripMaxVal, npMean_isSome_iff, ← not_iff_not, not_not, not_le, hempty]
    omega

/-- Claim C10 witness: the single-sample list `[5]` has an empty top-60%
slice and a NaN reduction, and two samples suffice for a defined value. -/
theorem gripMaxVal_single_sample_witness :
    ([(5 : ℚ)] ≠ [] ∧
      ((len60 [(5 : ℚ)].length = 0 ↔ [(5 : ℚ)].length = 1) ∧
       ([(5 : ℚ)].length = 1 → gripMaxVal [(5 : ℚ)] = none) ∧
       ((gripMaxVal [(5 : ℚ)]).isSome ↔ 2 ≤ [(5 : ℚ)].length))) ∧
    (gripMaxVal [(3 : ℚ), 4]).isSome = true :=
  ⟨⟨by simp, gripMaxVal_single_sample [(5 : ℚ)] (by simp)⟩,
    by norm_num [gripMaxVal, npMean, top60, sortDesc, insertDesc, len60]⟩

/-- Claim C9 (confirmed): from the default state (forward target 30,
direction Forward, armed, left handedness), the measurement with primary
angle 40 and secondary angle 35 fires a success: `repsCurrent` becomes 1
and `armed` becomes false, with no level-up record persisted. -/
theorem observe_success_scenario :
    (observe DEFAULT_STATE mSuccess40).1.reps = 1 ∧
    (observe DEFAULT_STATE mSuccess40).1.armed = false ∧
    (observe DEFAULT_STATE mSuccess40).2.2 = none := by
  norm_num [observe, mSuccess40, DEFAULT_STATE, successStep, successCond,
    currentTarget, crossing, HANDEDNESS, straightWarn, rearmStep, driftStep,
    NUM_REPS_TO_LEVEL_UP, RESET_THRESHOLD]

set_option maxRecDepth 4000 in
/-- Claim C1 (counterexample): five consecutive armed successes in the
Forward direction with forward target 30, re-armed between them, do NOT
make the forward target 35: the auto level-up flips the direction first
and then increments the new (Backward) direction's target, so the
forward target stays 30. -/
theorem fiveSuccess_forward_target_not_35 :
    (runTicks DEFAULT_STATE fiveSuccessSeq).1.angle_target_forward = 30 ∧
    ¬ (runTicks DEFAULT_STATE fiveSuccessSeq).1.angle_target_forward = 35 := by
  norm_num [runTicks, fiveSuccessSeq, mSuccess40, mRearm, DEFAULT_STATE, observe,
    successStep, successCond, currentTarget, crossing, HANDEDNESS, straightWarn,
    rearmStep, driftStep, NUM_REPS_TO_LEVEL_UP, RESET_THRESHOLD, ANGLE_INCREMENT,
    pyInt, List.foldl]

set_option maxRecDepth 4000 in
/-- Claim C1 (amended): on the fifth consecutive armed success in the
Forward direction with forward target 30, the direction flips to
Backward, the new (Backward) direction's target is incremented from 15
to 20 while the forward target stays 30, `repsCurrent` resets to 0, and
a `SessionRecord` with `level_up = true`, the pre-level-up targets and
`repetitions = 5` is persisted. -/
theorem fiveSuccess_run_spec :
    runTicks DEFAULT_STATE fiveSuccessSeq =
      ({ angle_target_forward := 30
         angle_target_backward := 20
         forward_tilt := false
         armed := false
         reps := 0
         reps_last_session := 0
         baseline_id0 := none
         show_message := true },
       [{ degree_forward := 30, degree_backward := 15,
          repetitions := 5, level_up := true }]) := by
  norm_num [runTicks, fiveSuccessSeq, mSuccess40, mRearm, DEFAULT_STATE, observe,
    successStep, successCond, currentTarget, crossing, HANDEDNESS, straightWarn,
    rearmStep, driftStep, NUM_REPS_TO_LEVEL_UP, RESET_THRESHOLD, ANGLE_INCREMENT,
    pyInt, List.foldl]

/-- Claim C2 (counterexample): an automatic level-up does not keep the
forward target within [25, 70].  From a Backward-direction state with
the forward target at its maximum 70 and four reps counted, the fifth
success flips the direction to Forward and pushes the forward target to
75, above `MAX_ANGLE_TARGET_FORWARD`. -/
theorem auto_levelUp_exceeds_forward_max :
    (observe sForward70 mBack300).1.angle_target_forward = 75 ∧
    ¬ (observe sForward70 mBack300).1.angle_target_forward
        ≤ MAX_ANGLE_TARGET_FORWARD := by
  norm_num [observe, sForward70, mBack300, DEFAULT_STATE, successStep,
    successCond, currentTarget, crossing, HANDEDNESS, straightWarn, rearmStep,
    driftStep, NUM_REPS_TO_LEVEL_UP, RESET_THRESHOLD, ANGLE_INCREMENT, pyInt,
    MAX_ANGLE_TARGET_FORWARD]

/-- Claim C2 (amended): every manual level-up keeps the forward target
within [25, 70] and the backward target within [10, 50], wrapping a
target at its maximum to its minimum; the automatic level-up, by
contrast, adds 5 to the new direction's target with no bounds check —
in particular, leveling up out of the Backward direction always sets
the forward target to its old value plus 5. -/
theorem levelUp_target_bounds (s : TrackerState) (m : Measurement)
    (hf1 : MIN_ANGLE_TARGET_FORWARD ≤ s.angle_target_forward)
    (hf2 : s.angle_target_forward ≤ MAX_ANGLE_TARGET_FORWARD)
    (hb1 : MIN_ANGLE_TARGET_BACKWARD ≤ s.angle_target_backward)
    (hb2 : s.angle_target_backward ≤ MAX_ANGLE_TARGET_BACKWARD) :
    (MIN_ANGLE_TARGET_FORWARD ≤ (manualLevelUp s).1.angle_target_forward ∧
     (manualLevelUp s).1.angle_target_forward ≤ MAX_ANGLE_TARGET_FORWARD ∧
     MIN_ANGLE_TARGET_BACKWARD ≤ (manualLevelUp s).1.angle_target_backward ∧
     (manualLevelUp s).1.angle_target_backward ≤ MAX_ANGLE_TARGET_BACKWARD) ∧
    (s.forward_tilt = true → s.angle_target_forward = MAX_ANGLE_TARGET_FORWARD →
      (manualLevelUp s).1.angle_target_forward = MIN_ANGLE_TARGET_FORWARD) ∧
    (s.forward_tilt = false → s.angle_target_backward = MAX_ANGLE_TARGET_BACKWARD →
      (manualLevelUp s).1.angle_target_backward = MIN_ANGLE_TARGET_BACKWARD) ∧
    (autoLevelCond s m = true → s.forward_tilt = false →
      (observe s m).1.angle_target_forward =
        s.angle_target_forward + ANGLE_INCREMENT) := by
  refine ⟨?_, ?_, ?_, ?_⟩
  · unfold manualLevelUp
    cases hft : s.forward_tilt <;>
      simp only [hft, Bool.false_eq_true, if_false, if_true] <;>
      split_ifs with h <;>
      refine ⟨?_, ?_, ?_, ?_⟩ <;>
      simp only [MIN_ANGLE_TARGET_FORWARD, MAX_ANGLE_TARGET_FORWARD,
        MIN_ANGLE_TARGET_BACKWARD, MAX_ANGLE_TARGET_BACKWARD,
        ANGLE_INCREMENT] at * <;>
      linarith
  · intro hft hmax
    unfold manualLevelUp
    simp only [hft, if_true]
    rw [if_neg]
    simp only [MAX_ANGLE_TARGET_FORWARD, ANGLE_INCREMENT] at *
    rw [hmax]
    norm_num
  · intro hft hmax
    unfold manualLevelUp
    simp only [hft, Bool.false_eq_true, if_false]
    rw [if_neg]
    simp only [MAX_ANGLE_TARGET_BACKWARD, ANGLE_INCREMENT] at *
    rw [hmax]
    norm_num
  · intro hauto hft
    have hspec := (observe_auto_spec s m hauto).2.1
    rw [hspec, hft]
    simp

/-- Claim C2 witness: the manual level-up bound applied to the default
state. -/
theorem levelUp_target_bounds_witness :
    MIN_ANGLE_TARGET_FORWARD ≤ (manualLevelUp DEFAULT_STATE).1.angle_target_forward ∧
    (manualLevelUp DEFAULT_STATE).1.angle_target_forward ≤ MAX_ANGLE_TARGET_FORWARD :=
  ⟨((levelUp_target_bounds DEFAULT_STATE mNoHand
      (by norm_num [MIN_ANGLE_TARGET_FORWARD, DEFAULT_STATE])
      (by norm_num [MAX_ANGLE_TARGET_FORWARD, DEFAULT_STATE])
      (by norm_num [MIN_ANGLE_TARGET_BACKWARD, DEFAULT_STATE])
      (by norm_num [MAX_ANGLE_TARGET_BACKWARD, DEFAULT_STATE])).1).1,
   ((levelUp_target_bounds DEFAULT_STATE mNoHand
      (by norm_num [MIN_ANGLE_TARGET_FORWARD, DEFAULT_STATE])
      (by norm_num [MAX_ANGLE_TARGET_FORWARD, DEFAULT_STATE])
      (by norm_num [MIN_ANGLE_TARGET_BACKWARD, DEFAULT_STATE])
      (by norm_num [MAX_ANGLE_TARGET_BACKWARD, DEFAULT_STATE])).1).2.1⟩

/-- Claim C3 (counterexample): a measurement whose angles differ by
exactly 20 degrees surfaces NO warning — the source's guard is the
strict `> 20` — even though the claim requires a warning for every
difference of at least 20 degrees.  (No success is recorded, as the
claim also says.) -/
theorem straightness_20_no_warning :
    |(60 : ℚ) - 40| ≥ 20 ∧
    (observe DEFAULT_STATE mDiff20).2.1.warning = none ∧
    (observe DEFAULT_STATE mDiff20).1.reps = DEFAULT_STATE.reps := by
  norm_num [observe, mDiff20, DEFAULT_STATE, successStep, successCond,
    currentTarget, crossing, HANDEDNESS, straightWarn, rearmStep, driftStep,
    NUM_REPS_TO_LEVEL_UP, RESET_THRESHOLD, mkSnapshot]

/-- Claim C3 (amended): for every measurement whose two angles differ by
at least 20 degrees, the success guard is false and `repsCurrent` is
unchanged even when the crossing condition holds; the "hand not
straight" warning is surfaced when the difference is strictly greater
than 20 degrees and strictly less than 300, unless the drift check
replaces it with the arm-movement warning on the same tick. -/
theorem straightness_blocks_success (s : TrackerState) (m : Measurement)
    (a a2 : ℚ) (h1 : m.angle_deg = some a) (h2 : m.angle_deg_2 = some a2)
    (h : 20 ≤ |a2 - a|) :
    successCond s a a2 = false ∧
    (observe s m).1.reps = s.reps ∧
    (20 < |a2 - a| ∧ |a2 - a| < 300 →
      (observe s m).2.1.warning = some Warning.handNotStraight ∨
      (observe s m).2.1.warning = some Warning.armMoved) := by
  have hnc : successCond s a a2 = false := by
    unfold successCond
    have hlt : ¬ (|a2 - a| < 10) := by linarith
    simp [hlt]
  rw [observe_some s m a a2 h1 h2, successStep_of_not_cond s a a2 hnc]
  refine ⟨hnc, ?_, ?_⟩
  · obtain ⟨_, _, _, d4, _, _⟩ :=
      driftStep_proj (rearmStep s a m.id0_xy) m.id0_xy m.id12_xy
        (straightWarn a a2)
    obtain ⟨_, _, _, r4, _, _⟩ := rearmStep_proj s a m.id0_xy
    dsimp only []
    rw [d4, r4]
  · intro hw
    have hsw : straightWarn a a2 = some Warning.handNotStraight := by
      unfold straightWarn
      rw [if_pos hw]
    dsimp only [mkSnapshot]
    rcases driftStep_warn (rearmStep s a m.id0_xy) m.id0_xy m.id12_xy
        (straightWarn a a2) with hd | hd
    · exact Or.inl (hd.trans hsw)
    · exact Or.inr hd

/-- Claim C3 witness: the angle pair (40, 70) differs by 30 degrees, so
no success fires and the rep count of the default state is unchanged. -/
theorem straightness_blocks_success_witness :
    (20 : ℚ) ≤ |(70 : ℚ) - 40| ∧
    successCond DEFAULT_STATE 40 70 = false ∧
    (observe DEFAULT_STATE mDiff30).1.reps = DEFAULT_STATE.reps :=
  ⟨by norm_num,
   (straightness_blocks_success DEFAULT_STATE mDiff30 40 70 rfl rfl
      (by norm_num)).1,
   (straightness_blocks_success DEFAULT_STATE mDiff30 40 70 rfl rfl
      (by norm_num)).2.1⟩

/-- Claim C4 (confirmed): `repsCurrent` is set to 0 by every manual
level-up, every direction toggle, and every automatic level-up; the
session-end persistence leaves the state untouched, and on an `observe`
tick a nonzero `repsCurrent` becomes 0 exactly when the automatic
level-up fires — no plain success, re-arm or drift disarm resets it. -/
theorem repsReset_only_on_levelUp (s : TrackerState) (m : Measurement) :
    (manualLevelUp s).1.reps = 0 ∧
    (toggleDirection s).1.reps = 0 ∧
    (autoLevelCond s m = true → (observe s m).1.reps = 0) ∧
    (endSession s).1 = s ∧
    (s.reps ≠ 0 → ((observe s m).1.reps = 0 ↔ autoLevelCond s m = true)) := by
  refine ⟨rfl, rfl, fun h => (observe_auto_spec s m h).2.2.2.1, rfl, ?_⟩
  intro hne
  constructor
  · intro h0
    by_contra hfalse
    have hac : autoLevelCond s m = false := by
      cases hv : autoLevelCond s m
      · rfl
      · exact absurd hv hfalse
    rcases hoa : m.angle_deg with _ | a
    · rw [observe_no_angles s m (Or.inl hoa)] at h0
      exact hne h0
    · rcases hoa2 : m.angle_deg_2 with _ | a2
      · rw [observe_no_angles s m (Or.inr hoa2)] at h0
        exact hne h0
      · rw [observe_some s m a a2 hoa hoa2] at h0
        simp only [autoLevelCond, hoa, hoa2] at hac
        obtain ⟨_, _, _, d4, _, _⟩ :=
          driftStep_proj (rearmStep (successStep s a a2).1 a m.id0_xy)
            m.id0_xy m.id12_xy (straightWarn a a2)
        obtain ⟨_, _, _, r4, _, _⟩ :=
          rearmStep_proj (successStep s a a2).1 a m.id0_xy
        rw [d4, r4] at h0
        cases hc : successCond s a a2
        · rw [successStep_of_not_cond s a a2 hc] at h0
          exact hne h0
        · rw [hc, Bool.true_and, decide_eq_false_iff_not, not_le] at hac
          have hr : ¬ (s.reps + 1 ≥ NUM_REPS_TO_LEVEL_UP) := by omega
          unfold successStep at h0
          rw [hc] at h0
          simp only [if_true] at h0
          rw [if_neg hr] at h0
          exact Nat.succ_ne_zero s.reps h0
  · intro h
    exact (observe_auto_spec s m h).2.2.2.1

/-- Claim C4 witness: from a state two reps into a session, a tick with
no hand resets nothing. -/
theorem repsReset_only_on_levelUp_witness :
    sTwoReps.reps ≠ 0 ∧
    ((observe sTwoReps mNoHand).1.reps = 0 ↔
      autoLevelCond sTwoReps mNoHand = true) :=
  ⟨by norm_num [sTwoReps, DEFAULT_STATE],
   (repsReset_only_on_levelUp sTwoReps mNoHand).2.2.2.2
     (by norm_num [sTwoReps, DEFAULT_STATE])⟩

/-- Claim C5 (counterexample): the automatic level-up does NOT set
`repsLastSession` to the ending session's rep count.  From a state with
`repsCurrent = 4` and `repsLastSession = 7`, the fifth success persists
the `level_up` record with 5 repetitions but leaves `repsLastSession`
at 7. -/
theorem auto_levelUp_repsLast_stale :
    (observe sFourReps mSuccess40).2.2 =
      some { degree_forward := 30, degree_backward := 15,
             repetitions := 5, level_up := true } ∧
    (observe sFourReps mSuccess40).1.reps_last_session = 7 ∧
    ¬ (observe sFourReps mSuccess40).1.reps_last_session = 5 := by
  norm_num [observe, sFourReps, mSuccess40, DEFAULT_STATE, successStep,
    successCond, currentTarget, crossing, HANDEDNESS, straightWarn, rearmStep,
    driftStep, NUM_REPS_TO_LEVEL_UP, RESET_THRESHOLD, ANGLE_INCREMENT, pyInt]

/-- Claim C5 (amended): the automatic level-up leaves `repsLastSession`
unchanged; the ending session's rep count is captured only in the
persisted `SessionRecord` (`repetitions = repsCurrent + 1 = 5`).  Only
the manual level-up and the direction toggle set `repsLastSession` to the
ending `repsCurrent`. -/
theorem auto_levelUp_repsLast_unchanged (s : TrackerState) (m : Measurement)
    (h : autoLevelCond s m = true) :
    (observe s m).1.reps_last_session = s.reps_last_session ∧
    (observe s m).2.2 =
      some { degree_forward := pyInt s.angle_target_forward
             degree_backward := pyInt s.angle_target_backward
             repetitions := s.reps + 1
             level_up := true } ∧
    (manualLevelUp s).1.reps_last_session = s.reps ∧
    (toggleDirection s).1.reps_last_session = s.reps := by
  obtain ⟨_, _, _, _, h5, h6⟩ := observe_auto_spec s m h
  exact ⟨h5, h6, rfl, rfl⟩

/-- Claim C5 witness: the amended statement at the concrete state with
four reps and a previous session of 7. -/
theorem auto_levelUp_repsLast_unchanged_witness :
    autoLevelCond sFourReps mSuccess40 = true ∧
    (observe sFourReps mSuccess40).1.reps_last_session =
      sFourReps.reps_last_session :=
  ⟨by norm_num [autoLevelCond, sFourReps, mSuccess40, DEFAULT_STATE,
     successCond, currentTarget, crossing, HANDEDNESS, NUM_REPS_TO_LEVEL_UP],
   (auto_levelUp_repsLast_unchanged sFourReps mSuccess40
     (by norm_num [autoLevelCond, sFourReps, mSuccess40, DEFAULT_STATE,
       successCond, currentTarget, crossing, HANDEDNESS,
       NUM_REPS_TO_LEVEL_UP])).1⟩

/-- Claim C8 (counterexample): on a tick with no hand detected the
progression state is indeed unchanged, but the emitted snapshot is NOT
the current snapshot unchanged: after a success tick at angle 40, a
no-hand tick rewrites the snapshot's angle to 0. -/
theorem noHand_snapshot_not_unchanged :
    (observe (observe DEFAULT_STATE mSuccess40).1 mNoHand).1 =
      (observe DEFAULT_STATE mSuccess40).1 ∧
    (observe DEFAULT_STATE mSuccess40).2.1.angle = 40 ∧
    (observe (observe DEFAULT_STATE mSuccess40).1 mNoHand).2.1.angle = 0 ∧
    ¬ ((observe (observe DEFAULT_STATE mSuccess40).1 mNoHand).2.1 =
        (observe DEFAULT_STATE mSuccess40).2.1) := by
  norm_num [observe, mSuccess40, mNoHand, DEFAULT_STATE, successStep,
    successCond, currentTarget, crossing, HANDEDNESS, straightWarn, rearmStep,
    driftStep, NUM_REPS_TO_LEVEL_UP, RESET_THRESHOLD, mkSnapshot]

/-- Claim C8 (amended): on a tick whose measurement lacks the primary
angle, the progression state is unchanged and nothing is persisted, but
the snapshot is rebuilt from that state with its angle field forced to 0
and its warning field cleared — not re-emitted unchanged. -/
theorem noPrimary_state_unchanged (s : TrackerState) (m : Measurement)
    (h : m.angle_deg = none) :
    (observe s m).1 = s ∧
    (observe s m).2.1 = mkSnapshot s none none ∧
    (observe s m).2.2 = none := by
  rw [observe_no_angles s m (Or.inl h), h]
  exact ⟨rfl, rfl, rfl⟩

/-- Claim C8 witness: the no-hand measurement leaves the default state
unchanged while emitting the rebuilt snapshot. -/
theorem noPrimary_state_unchanged_witness :
    mNoHand.angle_deg = none ∧
    (observe DEFAULT_STATE mNoHand).1 = DEFAULT_STATE ∧
    (observe DEFAULT_STATE mNoHand).2.1 = mkSnapshot DEFAULT_STATE none none :=
  ⟨rfl, (noPrimary_state_unchanged DEFAULT_STATE mNoHand rfl).1,
   (noPrimary_state_unchanged DEFAULT_STATE mNoHand rfl).2.1⟩

end MindCts
